import Mathlib

/-!
Verification of the content-acquisition and AI-analysis core of the
TrendRadar news aggregator (`src/trendradar`), as a shallow embedding in
Lean 4.  Definitions are translated from the Python source:

* `trendradar/scraper/base.py`          — `ScrapedContent`, `ScraperResult`
* `trendradar/scraper/content_store.py` — `ContentStore` (SQLite rows as a list)
* `trendradar/scraper/router.py`        — `ScraperRouter`
* `trendradar/llm/client.py`            — `LLMClient.chat` retry loop
* `trendradar/llm/analyzer.py`          — `AIAnalyzer._parse_insights`,
                                          `HotspotAnalyzer._parse_response`

Modelling conventions:

* Python `str` values are Lean `String`s; the Python string operations
  used by the code (`strip`, `split`, `find`, `endswith`, `in`, slicing)
  are re-implemented below on `List Char` (code points), with the
  whitespace class restricted to the ASCII whitespace characters
  actually occurring in the analysed inputs.
* Timestamps are modelled as natural numbers (ISO-8601 strings of a
  fixed format compare lexicographically exactly as their instants
  compare, so the SQL string comparisons become `<`/`≤` on `Nat`).
* Network and database I/O are external effects: the outcome of each
  remote attempt is an explicit argument of the embedded function.
-/

namespace NewsTest

/-! ## Python string primitives -/

/-- ASCII part of the Python `str.strip` / regex `\s` whitespace class. -/
def pySpace (c : Char) : Bool :=
  c = ' ' || c = '\t' || c = '\n' || c = '\x0d' || c = '\x0b' || c = '\x0c'

/-- Python `str.strip()` on a list of code points. -/
def pyStrip (l : List Char) : List Char :=
  ((l.dropWhile pySpace).reverse.dropWhile pySpace).reverse

/-- Python `str.strip()`. -/
def pyStripStr (s : String) : String :=
  String.mk (pyStrip s.data)

/-- Python `str.endswith(suffix)`. -/
def pyEndsWith (s suf : String) : Bool :=
  suf.data.isSuffixOf s.data

/-- Index of the first occurrence of `need` in `hay` (Python `str.find`,
`none` for `-1`). -/
def findSubAux (need : List Char) : List Char → Option Nat
  | [] => if need.isEmpty then some 0 else none
  | c :: cs =>
    if need.isPrefixOf (c :: cs) then some 0
    else (findSubAux need cs).map (· + 1)

/-- Python substring containment (`need in hay`). -/
def containsSub (hay need : List Char) : Bool :=
  (findSubAux need hay).isSome

/-- Remainder of `hay` after the first occurrence of `need`
(`hay.split(need, 1)[1]`, `[]` when `need` does not occur). -/
def afterFirst (hay need : List Char) : List Char :=
  match findSubAux need hay with
  | some i => hay.drop (i + need.length)
  | none => []

/-- Python slicing `s[:n]` by code points. -/
def pyTake (n : Nat) (s : String) : String :=
  String.mk (s.data.take n)

/-! ## `scraper/base.py`: data model -/

/-- `ScraperType` enum. -/
inductive ScraperType where
  | jinaReader
  | playwright
  | simple
deriving DecidableEq, Repr

/-- `ScrapedContent` dataclass.  `publishTime` is an abstract instant;
`metadata` is kept as an association list of strings. -/
structure ScrapedContent where
  url : String
  title : String := ""
  content : String := ""
  html_content : String := ""
  author : String := ""
  publishTime : Option Nat := none
  word_count : Nat := 0
  images : List String := []
  metadata : List (String × String) := []
deriving DecidableEq, Repr

/-- Construction of a `ScrapedContent` followed by `__post_init__`:
`if self.content and self.word_count == 0: self.word_count = len(self.content)`.
Arguments are in dataclass field order. -/
def mkScrapedContent (url title content html_content author : String)
    (publishTime : Option Nat) (word_count : Nat) (images : List String)
    (metadata : List (String × String)) : ScrapedContent :=
  { url, title, content, html_content, author, publishTime, images, metadata,
    word_count := if content ≠ "" ∧ word_count = 0 then content.length else word_count }

/-- `ScraperResult` dataclass. -/
structure ScraperResult where
  success : Bool
  content : Option ScrapedContent := none
  error : String := ""
  scraper_type : ScraperType := ScraperType.simple
  elapsed_time : Nat := 0
deriving DecidableEq, Repr

/-- `ScraperResult.failure` classmethod. -/
def ScraperResult.failure (error : String) (scraper_type : ScraperType) : ScraperResult :=
  { success := false, error, scraper_type }

/-- `ScraperResult.success_result` classmethod. -/
def ScraperResult.successResult (content : ScrapedContent) (scraper_type : ScraperType)
    (elapsed_time : Nat := 0) : ScraperResult :=
  { success := true, content := some content, scraper_type, elapsed_time }

/-! ## `scraper/content_store.py`: the content store

A database state is the list of rows of the `scraped_content` table
(the unread `id`/`created_at` columns are omitted).  The MD5 hex digest
used for `url_hash` is an injective encoding of the URL and is modelled
by the identity embedding — only its injectivity is observable through
the store operations. -/

/-- One row of the `scraped_content` table. -/
structure StoreRow where
  url : String
  urlHash : String
  title : String
  content : String
  author : String
  publishTime : Option Nat
  wordCount : Nat
  images : List String
  metadata : List (String × String)
  scraperType : Option String
  scrapedAt : Nat
  expiresAt : Option Nat
deriving DecidableEq, Repr

/-- `_hash_url`: `hashlib.md5(url.encode()).hexdigest()`, modelled as an
injective encoding (see section comment). -/
def hashUrl (url : String) : String := url

/-- In-memory state of a `ContentStore`. -/
structure ContentStore where
  rows : List StoreRow
  retentionDays : Nat
deriving DecidableEq, Repr

/-- Number of time units (seconds) in one day, for
`timedelta(days=retention_days)`. -/
def secondsPerDay : Nat := 86400

/-- The row written by `ContentStore.save` for content `c` at time `now`. -/
def saveRow (c : ScrapedContent) (scraperType : Option String)
    (now retentionDays : Nat) : StoreRow :=
  { url := c.url
    urlHash := hashUrl c.url
    title := c.title
    content := c.content
    author := c.author
    publishTime := c.publishTime
    wordCount := c.word_count
    images := c.images
    metadata := c.metadata
    scraperType
    scrapedAt := now
    expiresAt := some (now + retentionDays * secondsPerDay) }

/-- `ContentStore.save`: `INSERT OR REPLACE` keyed on the `UNIQUE url`
column (the exception path models an I/O failure and is external). -/
def ContentStore.save (s : ContentStore) (c : ScrapedContent)
    (scraperType : Option String) (now : Nat) : ContentStore :=
  { s with rows := saveRow c scraperType now s.retentionDays ::
      s.rows.filter (fun r => r.url != c.url) }

/-- The reader-visibility test of `get`/`exists`/`get_batch`:
`expires_at IS NULL OR expires_at > now`. -/
def freshB (now : Nat) (r : StoreRow) : Bool :=
  match r.expiresAt with
  | none => true
  | some e => now < e

/-- `_row_to_content`: rebuild a `ScrapedContent` from a row (the
constructor re-runs `__post_init__`; `html_content` is not stored). -/
def rowToContent (r : StoreRow) : ScrapedContent :=
  mkScrapedContent r.url r.title r.content "" r.author r.publishTime
    r.wordCount r.images r.metadata

/-- `ContentStore.get`: `SELECT * WHERE url_hash = ? AND (expires_at IS
NULL OR expires_at > now)`, first row converted. -/
def ContentStore.get (s : ContentStore) (url : String) (now : Nat) :
    Option ScrapedContent :=
  (s.rows.find? (fun r => r.urlHash == hashUrl url && freshB now r)).map rowToContent

/-- The deletion test of `cleanup_expired`:
`expires_at IS NOT NULL AND expires_at < now`. -/
def sweepExpiredB (now : Nat) (r : StoreRow) : Bool :=
  match r.expiresAt with
  | none => false
  | some e => e < now

/-- `ContentStore.cleanup_expired`: deletes the matching rows and
returns the new state together with the deleted row count. -/
def ContentStore.cleanupExpired (s : ContentStore) (now : Nat) :
    ContentStore × Nat :=
  ({ s with rows := s.rows.filter (fun r => !sweepExpiredB now r) },
   s.rows.countP (sweepExpiredB now))

/-- Store states reachable through `save`: URLs are unique (the `UNIQUE`
constraint) and `url_hash` is the digest of `url`. -/
def ContentStore.WF (s : ContentStore) : Prop :=
  (s.rows.map (·.url)).Nodup ∧ ∀ r ∈ s.rows, r.urlHash = hashUrl r.url

/-! ## `scraper/router.py`: the scraper router -/

/-- `ScraperRouter.JS_RENDER_DOMAINS` (a Python set; membership only). -/
def jsRenderDomains : List String :=
  ["weibo.com", "weibo.cn", "m.weibo.cn", "douyin.com", "www.douyin.com",
   "twitter.com", "x.com", "instagram.com", "facebook.com", "tiktok.com"]

/-- `ScraperRouter.JINA_PREFERRED_DOMAINS`. -/
def jinaPreferredDomains : List String :=
  ["zhihu.com", "www.zhihu.com", "zhuanlan.zhihu.com", "mp.weixin.qq.com",
   "36kr.com", "www.36kr.com", "ithome.com", "www.ithome.com",
   "baidu.com", "news.baidu.com", "finance.sina.com.cn", "tech.sina.com.cn",
   "news.sina.com.cn", "sohu.com", "www.sohu.com", "qq.com", "news.qq.com",
   "thepaper.cn", "www.thepaper.cn", "jiemian.com", "www.jiemian.com"]

/-- The per-entry test of the two domain loops:
`domain.endswith(entry) or domain == entry`. -/
def domainMatch (domain entry : String) : Bool :=
  pyEndsWith domain entry || domain == entry

/-- `_extract_domain`: `urlparse(url).netloc.lower()`; the embedding
takes the netloc directly and models the case fold. -/
def extractDomain (netloc : String) : String := netloc.toLower

/-- `ScraperRouter` configuration state.  `scrapers` lists the keys of
`self.scrapers` in construction order (each kind present iff its
`methods.<kind>.enabled` config is true); `domainRules` holds the
already-validated `domain_rules` mapping. -/
structure ScraperRouter where
  enabled : Bool
  scrapers : List ScraperType
  domainRules : List (String × ScraperType)
deriving DecidableEq, Repr

/-- Python `domain in self.domain_rules` / `self.domain_rules[domain]`. -/
def lookupRule (rules : List (String × ScraperType)) (domain : String) :
    Option ScraperType :=
  (rules.find? (fun p => p.1 == domain)).map (·.2)

/-- `ScraperRouter._build_priority_list`. -/
def buildPriorityList (primary : ScraperType) : List ScraperType :=
  primary :: [ScraperType.jinaReader, ScraperType.simple,
    ScraperType.playwright].filter (fun t => t != primary)

/-- `ScraperRouter._get_scraper_priority` on the extracted domain. -/
def ScraperRouter.getScraperPriority (r : ScraperRouter) (domain : String) :
    List ScraperType :=
  match lookupRule r.domainRules domain with
  | some k => buildPriorityList k
  | none =>
    if jsRenderDomains.any (fun e => domainMatch domain e) then
      buildPriorityList ScraperType.playwright
    else if jinaPreferredDomains.any (fun e => domainMatch domain e) then
      buildPriorityList ScraperType.jinaReader
    else
      [ScraperType.jinaReader, ScraperType.simple, ScraperType.playwright]

/-- The dispatch loop of `ScraperRouter.scrape`: walk the priority list,
skip kinds without a registered scraper, return the first success,
otherwise thread `last_error` through.  `fetch k` is the outcome of
`await self.scrapers[k].scrape(url)`.  The second component records the
scrapers actually invoked, in order. -/
def scrapeLoop (scrapers : List ScraperType) (fetch : ScraperType → ScraperResult) :
    List ScraperType → String → ScraperResult × List ScraperType
  | [], lastError =>
    (ScraperResult.failure ("所有抓取器均失败: " ++ lastError) ScraperType.simple, [])
  | t :: ts, lastError =>
    if scrapers.contains t then
      let res := fetch t
      if res.success then (res, [t])
      else
        let rest := scrapeLoop scrapers fetch ts res.error
        (rest.1, t :: rest.2)
    else scrapeLoop scrapers fetch ts lastError

/-- `ScraperRouter.scrape` (with the invocation trace). -/
def ScraperRouter.scrape (r : ScraperRouter) (domain : String)
    (fetch : ScraperType → ScraperResult) : ScraperResult × List ScraperType :=
  if r.enabled = false then
    (ScraperResult.failure "内容抓取已禁用" ScraperType.simple, [])
  else if r.scrapers.isEmpty then
    (ScraperResult.failure "没有可用的抓取器" ScraperType.simple, [])
  else
    scrapeLoop r.scrapers fetch (r.getScraperPriority domain) ""

/-- The kinds `scrape` can attempt, in order: the priority list
restricted to the registered scrapers. -/
def ScraperRouter.availOrder (r : ScraperRouter) (domain : String) :
    List ScraperType :=
  (r.getScraperPriority domain).filter (fun t => r.scrapers.contains t)

/-! ## `llm/client.py`: the chat retry loop -/

/-- `ChatResponse` dataclass (`usage` as an association list). -/
structure ChatResponse where
  content : String
  model : String := ""
  usage : List (String × Nat) := []
  finish_reason : String := ""
deriving DecidableEq, Repr

/-- Outcome of one HTTP attempt inside `LLMClient.chat`: a parsed
response, or the `last_error` message produced by the `except` branches
(timeout, `aiohttp.ClientError`, non-200 status raised as
`RuntimeError`, other exceptions). -/
inductive AttemptOutcome where
  | ok (resp : ChatResponse)
  | err (msg : String)
deriving DecidableEq, Repr

/-- The retry loop of `LLMClient.chat`: `for attempt in
range(max_retries + 1)`, sleeping `2 ** attempt` seconds between
attempts (`if attempt < max_retries`).  `attempts i` is the outcome of
the i-th request.  Returns the result (`.error` models the final
`raise RuntimeError`) and the list of backoff sleeps performed. -/
def chatGo (attempts : Nat → AttemptOutcome) (maxRetries : Nat) :
    Nat → Nat → String → Except String ChatResponse × List Nat
  | _, 0, lastError =>
    (Except.error ("LLM 请求失败（重试 " ++ toString maxRetries ++ " 次后）: " ++ lastError), [])
  | attempt, remaining + 1, _ =>
    match attempts attempt with
    | AttemptOutcome.ok r => (Except.ok r, [])
    | AttemptOutcome.err e =>
      if remaining = 0 then
        chatGo attempts maxRetries (attempt + 1) 0 e
      else
        let rest := chatGo attempts maxRetries (attempt + 1) remaining e
        (rest.1, 2 ^ attempt :: rest.2)

/-- `LLMClient.chat` restricted to its retry behaviour (`is_available`
assumed; payload assembly is I/O).  `last_error` starts as `None` but is
never read before being set, as at least one attempt runs. -/
def LLMClient.chat (attempts : Nat → AttemptOutcome) (maxRetries : Nat) :
    Except String ChatResponse × List Nat :=
  chatGo attempts maxRetries 0 (maxRetries + 1) ""

/-! ## `llm/analyzer.py`: `AIAnalyzer._parse_insights`

The primary pattern is the regex
`(?:\d+\.\s*|\-\s*)\[([^\]]+)\]\s*(.+?)(?=(?:\d+\.\s*|\-\s*)\[|$)`
under `re.DOTALL`, run with `re.findall`.  The functions below compile
its backtracking semantics: greedy `\d+`/`\s*`/`[^\]]+` runs never need
to give back characters (the character after a shorter run can never
match the follow-up literal), except for the single case of a match
ending in whitespace at end-of-text, where `\s*` yields one character
to the mandatory `(.+?)`. -/

/-- `InsightItem` dataclass. -/
structure InsightItem where
  domain : String
  content : String
  importance : Nat := 0
deriving DecidableEq, Repr

/-- The zero-width lookahead `(?:\d+\.\s*|\-\s*)\[` at a position. -/
def lookMarker : List Char → Bool
  | [] => false
  | c :: rest =>
    if c.isDigit then
      match (c :: rest).dropWhile Char.isDigit with
      | '.' :: r2 =>
        match r2.dropWhile pySpace with
        | '[' :: _ => true
        | _ => false
      | _ => false
    else if c = '-' then
      match rest.dropWhile pySpace with
      | '[' :: _ => true
      | _ => false
    else false

/-- Where the non-greedy `(.+?)` may stop: at the next marker, or at
`$` (end of text, or just before a final newline, as `re.DOTALL` does
not change `$`). -/
def lookAheadOk (cs : List Char) : Bool :=
  lookMarker cs || cs.isEmpty || cs == ['\n']

/-- Consume the shortest non-empty `(.+?)` (first character already in
`acc`) up to the first position satisfying the lookahead.  Returns the
captured content and the remaining text. -/
def scanContent (acc : List Char) : List Char → List Char × List Char
  | [] => (acc, [])
  | c :: cs =>
    if lookAheadOk (c :: cs) then (acc, c :: cs)
    else scanContent (acc ++ [c]) cs

/-- Try to match the full insight pattern anchored at the start of
`cs`; on success return the two captures and the rest of the text. -/
def tryMatchAt (cs : List Char) : Option (String × String × List Char) :=
  let markerRest : Option (List Char) :=
    match cs with
    | [] => none
    | c :: rest =>
      if c.isDigit then
        match (c :: rest).dropWhile Char.isDigit with
        | '.' :: r2 => some (r2.dropWhile pySpace)
        | _ => none
      else if c = '-' then some (rest.dropWhile pySpace)
      else none
  match markerRest with
  | none => none
  | some r =>
    match r with
    | '[' :: r2 =>
      let dom := r2.takeWhile (fun ch => ch ≠ ']')
      if dom.isEmpty then none
      else
        match r2.drop dom.length with
        | ']' :: r3 =>
          let ws := r3.takeWhile pySpace
          match r3.drop ws.length with
          | [] =>
            -- nothing after the whitespace run: `\s*` yields its last
            -- character to `(.+?)`, which then stops at `$`
            match ws.getLast? with
            | some w => some (String.mk dom, String.mk [w], [])
            | none => none
          | c :: cs2 =>
            let res := scanContent [c] cs2
            some (String.mk dom, String.mk res.1, res.2)
        | _ => none
    | _ => none

/-- `re.findall` for the insight pattern: leftmost, non-overlapping
matches.  A successful match always consumes at least one character, so
`fuel := length + 1` never runs out. -/
def findallInsights : Nat → List Char → List (String × String)
  | 0, _ => []
  | _ + 1, [] => []
  | fuel + 1, c :: cs =>
    match tryMatchAt (c :: cs) with
    | some (dom, content, rest) => (dom, content) :: findallInsights fuel rest
    | none => findallInsights fuel cs

/-- `line.startswith('-') or line.startswith('•') or re.match(r'\d+\.', line)`. -/
def fallbackLineMarker (l : List Char) : Bool :=
  match l with
  | [] => false
  | c :: rest =>
    c = '-' || c = '•' ||
      (c.isDigit && ((c :: rest).dropWhile Char.isDigit).head? == some '.')

/-- The character class of `re.sub(r'^[\d\.\-•\s]+', '', line)`. -/
def fallbackStripClass (c : Char) : Bool :=
  c.isDigit || c = '.' || c = '-' || c = '•' || pySpace c

/-- Python `text.split('\n')`. -/
def splitOnNl : List Char → List Char → List (List Char)
  | acc, [] => [acc.reverse]
  | acc, c :: cs =>
    if c = '\n' then acc.reverse :: splitOnNl [] cs
    else splitOnNl (c :: acc) cs

/-- The line-by-line fallback of `_parse_insights` (domain `综合`). -/
def fallbackInsights (text : String) : List InsightItem :=
  (splitOnNl [] (pyStrip text.data)).filterMap fun rawLine =>
    let line := pyStrip rawLine
    if line ≠ [] ∧ fallbackLineMarker line then
      let content := pyStrip (line.dropWhile fallbackStripClass)
      if content ≠ [] then
        some { domain := "综合", content := String.mk content }
      else none
    else none

/-- `AIAnalyzer._parse_insights`. -/
def AIAnalyzer.parseInsights (text : String) : List InsightItem :=
  let primary := (findallInsights (text.data.length + 1) text.data).map
    fun m => ({ domain := pyStripStr m.1, content := pyStripStr m.2 } : InsightItem)
  (if primary.isEmpty then fallbackInsights text else primary).take 5

/-! ## `json.loads` (library model)

`HotspotAnalyzer._parse_response` depends on the standard library
`json.loads` only through success (with the decoded value) or a
`JSONDecodeError` carrying a position and a message.  The recursive
descent parser below models it executably, drawing the default
(strict-mode) accept/reject boundary of CPython: numbers follow the
scanner's `NUMBER_RE` (tokens kept raw, `NaN`/`Infinity`/`-Infinity`
accepted as the default `parse_constant` does), strings reject
unescaped control characters and decode `\uXXXX` escapes with
surrogate-pair joining.  Error messages are abbreviated and quote-free,
and some error *positions* differ; no analysed control flow depends on
them. -/

/-- JSON values (`dict`s as association lists; a dict built by
`json.loads` keeps the last of duplicate keys, see `jsonGetD`). -/
inductive Json where
  | null
  | bool (b : Bool)
  | num (raw : String)
  | str (s : String)
  | arr (elems : List Json)
  | obj (fields : List (String × Json))

/-- `json.JSONDecodeError`: position and message. -/
structure JsonErr where
  pos : Nat
  msg : String
deriving DecidableEq, Repr

/-- Skip JSON whitespace, tracking the absolute position. -/
def skipWsP : List Char → Nat → List Char × Nat
  | [], p => ([], p)
  | c :: cs, p =>
    if c = ' ' || c = '\t' || c = '\n' || c = '\x0d' then skipWsP cs (p + 1)
    else (c :: cs, p)

/-- Value of one hexadecimal digit, as in `_decode_uXXXX`. -/
def hexDigitVal (c : Char) : Option Nat :=
  if '0' ≤ c ∧ c ≤ '9' then some (c.toNat - 48)
  else if 'a' ≤ c ∧ c ≤ 'f' then some (c.toNat - 87)
  else if 'A' ≤ c ∧ c ≤ 'F' then some (c.toNat - 55)
  else none

/-- JSON string body after the opening quote (`scanstring` in strict
mode): unescaped control characters (code points below 0x20) are
rejected; `\uXXXX` escapes are decoded, joining a high-surrogate unit
with an immediately following `\uXXXX` low surrogate — with an invalid
hex quad after such a `\u` prefix rejected, as in CPython.  A *lone*
surrogate, which a Lean `Char` cannot represent, degrades to the null
character through `Char.ofNat`; only its acceptance matters here.
The fuel (one unit per consumed character; call sites supply
`length + 1`) only makes the recursion structural. -/
def parseStrAux : Nat → List Char → Nat → List Char → Except JsonErr (String × List Char × Nat)
  | 0, _, p, _ => Except.error ⟨p, "Recursion limit"⟩
  | _ + 1, [], p, _ => Except.error ⟨p, "Unterminated string"⟩
  | fuel + 1, c :: cs, p, acc =>
    if c = '"' then Except.ok (String.mk acc.reverse, cs, p + 1)
    else if c = '\\' then
      match cs with
      | [] => Except.error ⟨p + 1, "Unterminated string"⟩
      | e :: cs2 =>
        if e = '"' || e = '\\' || e = '/' then parseStrAux fuel cs2 (p + 2) (e :: acc)
        else if e = 'n' then parseStrAux fuel cs2 (p + 2) ('\n' :: acc)
        else if e = 't' then parseStrAux fuel cs2 (p + 2) ('\t' :: acc)
        else if e = 'r' then parseStrAux fuel cs2 (p + 2) ('\x0d' :: acc)
        else if e = 'b' then parseStrAux fuel cs2 (p + 2) ('\x08' :: acc)
        else if e = 'f' then parseStrAux fuel cs2 (p + 2) ('\x0c' :: acc)
        else if e = 'u' then
          match cs2 with
          | h1 :: h2 :: h3 :: h4 :: cs3 =>
            match hexDigitVal h1, hexDigitVal h2, hexDigitVal h3, hexDigitVal h4 with
            | some a, some b, some c1, some d =>
              let u := ((a * 16 + b) * 16 + c1) * 16 + d
              if 0xD800 ≤ u ∧ u ≤ 0xDBFF then
                match cs3 with
                | '\\' :: 'u' :: g1 :: g2 :: g3 :: g4 :: cs4 =>
                  match hexDigitVal g1, hexDigitVal g2, hexDigitVal g3, hexDigitVal g4 with
                  | some a2, some b2, some c2, some d2 =>
                    let u2 := ((a2 * 16 + b2) * 16 + c2) * 16 + d2
                    if 0xDC00 ≤ u2 ∧ u2 ≤ 0xDFFF then
                      parseStrAux fuel cs4 (p + 12)
                        (Char.ofNat (0x10000 + (u - 0xD800) * 1024 + (u2 - 0xDC00)) :: acc)
                    else parseStrAux fuel cs3 (p + 6) (Char.ofNat u :: acc)
                  | _, _, _, _ => Except.error ⟨p + 7, "Invalid hex escape"⟩
                | _ => parseStrAux fuel cs3 (p + 6) (Char.ofNat u :: acc)
              else parseStrAux fuel cs3 (p + 6) (Char.ofNat u :: acc)
            | _, _, _, _ => Except.error ⟨p + 1, "Invalid hex escape"⟩
          | _ => Except.error ⟨p + 1, "Invalid hex escape"⟩
        else Except.error ⟨p, "Invalid escape"⟩
    else if c.toNat < 32 then
      Except.error ⟨p, "Invalid control character"⟩
    else parseStrAux fuel cs (p + 1) (c :: acc)

/-- The optional fraction group `(\.\d+)?` of `NUMBER_RE`: taken only
when a dot is followed by at least one digit. -/
def numFrac (cs : List Char) : List Char × List Char :=
  match cs with
  | '.' :: r =>
    let ds := r.takeWhile Char.isDigit
    if ds.isEmpty then ([], cs) else ('.' :: ds, r.drop ds.length)
  | _ => ([], cs)

/-- The optional exponent group `([eE][-+]?\d+)?` of `NUMBER_RE`: taken
only when complete. -/
def numExp (cs : List Char) : List Char × List Char :=
  match cs with
  | e :: r =>
    if e = 'e' || e = 'E' then
      let (sg, r2) : List Char × List Char :=
        match r with
        | s :: r2 => if s = '+' || s = '-' then ([s], r2) else ([], s :: r2)
        | [] => ([], [])
      let ds := r2.takeWhile Char.isDigit
      if ds.isEmpty then ([], cs) else (e :: (sg ++ ds), r2.drop ds.length)
    else ([], cs)
  | [] => ([], cs)

/-- Numeric token per CPython's scanner `NUMBER_RE`
`(-?(?:0|[1-9]\d*))(\.\d+)?([eE][-+]?\d+)?`, anchored at the position;
the integer part is `0` alone or a non-zero digit followed by digits.
The token is kept raw (its numeric value is never inspected). -/
def parseNum (cs : List Char) (p : Nat) : Except JsonErr (Json × List Char × Nat) :=
  let (sgn, cs1) : List Char × List Char :=
    match cs with
    | '-' :: rest => (['-'], rest)
    | _ => ([], cs)
  match cs1 with
  | '0' :: rest =>
    let (fr, r1) := numFrac rest
    let (ex, r2) := numExp r1
    let tok := sgn ++ '0' :: (fr ++ ex)
    Except.ok (Json.num (String.mk tok), r2, p + tok.length)
  | d :: rest =>
    if d.isDigit then
      let ds := rest.takeWhile Char.isDigit
      let (fr, r1) := numFrac (rest.drop ds.length)
      let (ex, r2) := numExp r1
      let tok := sgn ++ d :: (ds ++ fr ++ ex)
      Except.ok (Json.num (String.mk tok), r2, p + tok.length)
    else Except.error ⟨p, "Expecting value"⟩
  | [] => Except.error ⟨p, "Expecting value"⟩

/-- Literal keyword after its first character (`p` is the position
just past that character; a mismatch is reported at the token start, as
the scanner raises there). -/
def parseWord (w : List Char) (cs : List Char) (p : Nat) (v : Json) :
    Except JsonErr (Json × List Char × Nat) :=
  if w.isPrefixOf cs then Except.ok (v, cs.drop w.length, p + w.length)
  else Except.error ⟨p - 1, "Expecting value"⟩

/-- The three recursion modes of the descent: a value, the elements of
a non-empty array, the members of a non-empty object. -/
inductive PMode where
  | val
  | arrRest (acc : List Json)
  | objRest (acc : List (String × Json))

/-- The recursive descent, fuelled (each nesting step burns one unit;
`loads` supplies enough fuel for any input). -/
def parseF : Nat → PMode → List Char → Nat → Except JsonErr (Json × List Char × Nat)
  | 0, _, _, p => Except.error ⟨p, "Recursion limit"⟩
  | fuel + 1, PMode.val, cs, p =>
    (match skipWsP cs p with
    | ([], q) => Except.error ⟨q, "Expecting value"⟩
    | (c :: rest, q) =>
      if c = '"' then
        match parseStrAux (rest.length + 1) rest (q + 1) [] with
        | Except.ok (s, r2, q2) => Except.ok (Json.str s, r2, q2)
        | Except.error e => Except.error e
      else if c = 't' then parseWord "rue".data rest (q + 1) (Json.bool true)
      else if c = 'f' then parseWord "alse".data rest (q + 1) (Json.bool false)
      else if c = 'n' then parseWord "ull".data rest (q + 1) Json.null
      else if c = '[' then
        match skipWsP rest (q + 1) with
        | (']' :: r2, q2) => Except.ok (Json.arr [], r2, q2 + 1)
        | _ => parseF fuel (PMode.arrRest []) rest (q + 1)
      else if c = '\x7b' then
        match skipWsP rest (q + 1) with
        | ('\x7d' :: r2, q2) => Except.ok (Json.obj [], r2, q2 + 1)
        | _ => parseF fuel (PMode.objRest []) rest (q + 1)
      else if c = 'N' then parseWord "aN".data rest (q + 1) (Json.num "NaN")
      else if c = 'I' then parseWord "nfinity".data rest (q + 1) (Json.num "Infinity")
      else if c = '-' && "Infinity".data.isPrefixOf rest then
        Except.ok (Json.num "-Infinity", rest.drop 8, q + 9)
      else if c.isDigit || c = '-' then parseNum (c :: rest) q
      else Except.error ⟨q, "Expecting value"⟩)
  | fuel + 1, PMode.arrRest acc, cs, p =>
    (match parseF fuel PMode.val cs p with
    | Except.error e => Except.error e
    | Except.ok (v, r, q) =>
      match skipWsP r q with
      | (',' :: r2, q2) => parseF fuel (PMode.arrRest (acc ++ [v])) r2 (q2 + 1)
      | (']' :: r2, q2) => Except.ok (Json.arr (acc ++ [v]), r2, q2 + 1)
      | (_, q2) => Except.error ⟨q2, "Expecting comma delimiter"⟩)
  | fuel + 1, PMode.objRest acc, cs, p =>
    (match skipWsP cs p with
    | ('"' :: r, q) =>
      match parseStrAux (r.length + 1) r (q + 1) [] with
      | Except.error e => Except.error e
      | Except.ok (k, r2, q2) =>
        match skipWsP r2 q2 with
        | (':' :: r3, q3) =>
          match parseF fuel PMode.val r3 (q3 + 1) with
          | Except.error e => Except.error e
          | Except.ok (v, r4, q4) =>
            match skipWsP r4 q4 with
            | (',' :: r5, q5) => parseF fuel (PMode.objRest (acc ++ [(k, v)])) r5 (q5 + 1)
            | ('\x7d' :: r5, q5) => Except.ok (Json.obj (acc ++ [(k, v)]), r5, q5 + 1)
            | (_, q5) => Except.error ⟨q5, "Expecting comma delimiter"⟩
        | (_, q3) => Except.error ⟨q3, "Expecting colon delimiter"⟩
    | (_, q) => Except.error ⟨q, "Expecting property name enclosed in double quotes"⟩)

/-- `json.loads`: a single value spanning the whole input. -/
def loads (s : String) : Except JsonErr Json :=
  match parseF (s.data.length + 2) PMode.val s.data 0 with
  | Except.error e => Except.error e
  | Except.ok (v, rest, q) =>
    match skipWsP rest q with
    | ([], _) => Except.ok v
    | (_, q2) => Except.error ⟨q2, "Extra data"⟩

/-- `dict.get(key, default)` on a decoded object (later duplicate keys
overwrite earlier ones, as in a Python dict built by `json.loads`). -/
def jsonGetD (fields : List (String × Json)) (key : String) (dflt : Json) : Json :=
  fields.foldl (fun acc p => if p.1 = key then p.2 else acc) dflt

/-! ## `llm/analyzer.py`: `HotspotAnalyzer._parse_response` -/

/-- `AIAnalysisResult` dataclass.  The seven report fields hold whatever
`data.get(...)` returned (Python does not enforce `str`), so they are
typed as `Json`; their defaults are the empty string. -/
structure AIAnalysisResult where
  summary : Json := Json.str ""
  keyword_analysis : Json := Json.str ""
  sentiment : Json := Json.str ""
  cross_platform : Json := Json.str ""
  impact : Json := Json.str ""
  signals : Json := Json.str ""
  conclusion : Json := Json.str ""
  raw_response : String := ""
  success : Bool := false
  error : String := ""
  total_news : Nat := 0
  analyzed_news : Nat := 0
  max_news_limit : Nat := 0
  hotlist_count : Nat := 0
  rss_count : Nat := 0

/-- The fence extraction of `_parse_response`: slice after a
` ```json ` fence up to the closing ` ``` ` (or to the end), else
between the first two generic ` ``` ` fences (or after the first, if
unclosed), else the whole response. -/
def extractJsonStr (response : String) : String :=
  if containsSub response.data "```json".data then
    let code_block := afterFirst response.data "```json".data
    match findSubAux "```".data code_block with
    | some i => String.mk (code_block.take i)
    | none => String.mk code_block
  else if containsSub response.data "```".data then
    let after1 := afterFirst response.data "```".data
    match findSubAux "```".data after1 with
    | some j => String.mk (after1.take j)
    | none => String.mk after1
  else response

/-- The optional error context appended on `JSONDecodeError`:
`json_str[max(0, e.pos - 30):e.pos + 30] if json_str and e.pos else ""`,
wrapped as `，上下文: ...<ctx>...` when non-empty. -/
def jsonErrContext (json_str : String) (pos : Nat) : String :=
  let ctx :=
    if json_str == "" || pos == 0 then ""
    else String.mk (((json_str.data.drop (pos - 30)).take (pos + 30 - (pos - 30))))
  if ctx == "" then "" else "，上下文: ..." ++ ctx ++ "..."

/-- Body of `_parse_response` after the empty-response guard, with the
extracted-and-stripped `json_str` as an argument.  The `except`
branches: `ValueError` (empty extraction) and the catch-all (`data` not
a dict) mark `success = True` and keep the first 1000 characters of the
raw response as `summary`; so does `JSONDecodeError`. -/
def parseJsonBody (response json_str : String) : AIAnalysisResult :=
  if json_str == "" then
    { raw_response := response
      summary := Json.str (pyTake 1000 response)
      success := true
      error := "响应解析错误: ValueError: 提取的 JSON 内容为空" }
  else
    match loads json_str with
    | Except.ok (Json.obj data) =>
      { raw_response := response
        summary := jsonGetD data "summary" (Json.str "")
        keyword_analysis := jsonGetD data "keyword_analysis" (Json.str "")
        sentiment := jsonGetD data "sentiment" (Json.str "")
        cross_platform := jsonGetD data "cross_platform" (Json.str "")
        impact := jsonGetD data "impact" (Json.str "")
        signals := jsonGetD data "signals" (Json.str "")
        conclusion := jsonGetD data "conclusion" (Json.str "")
        success := true }
    | Except.ok _ =>
      { raw_response := response
        summary := Json.str (pyTake 1000 response)
        success := true
        error := "解析时发生未知错误: AttributeError" }
    | Except.error e =>
      { raw_response := response
        summary := Json.str (pyTake 1000 response)
        success := true
        error := "JSON 解析错误 (位置 " ++ toString e.pos ++ "): " ++ e.msg
          ++ jsonErrContext json_str e.pos }

/-- `HotspotAnalyzer._parse_response`. -/
def HotspotAnalyzer.parseResponse (response : String) : AIAnalysisResult :=
  if response == "" || pyStripStr response == "" then
    { raw_response := response, error := "AI 返回空响应" }
  else
    parseJsonBody response (pyStripStr (extractJsonStr response))

/-! ## General lemmas -/

theorem hashUrl_injective : Function.Injective hashUrl := fun _ _ h => h

theorem sweepExpiredB_iff (now : Nat) (r : StoreRow) :
    sweepExpiredB now r = true ↔ ∃ e, r.expiresAt = some e ∧ e < now := by
  cases h : r.expiresAt <;> simp [sweepExpiredB, h]

theorem filter_length_split {α : Type} (p : α → Bool) (l : List α) :
    l.countP p + (l.filter (fun a => !p a)).length = l.length := by
  induction l with
  | nil => simp
  | cons a l ih =>
    cases h : p a <;> simp [List.countP_cons, h, ← ih] <;> omega

/-! ## Claim theorems -/

/-- C4 (counterexample): a row whose `expires_at` equals the current
instant satisfies `expires_at ≤ now`, yet `cleanup_expired` (which uses
the strict `expires_at < ?`) deletes nothing and returns 0. -/
theorem cleanup_boundary_cex :
    (ContentStore.cleanupExpired
        ⟨[⟨"u", hashUrl "u", "", "", "", none, 0, [], [], none, 0, some 100⟩], 7⟩ 100)
      = (⟨[⟨"u", hashUrl "u", "", "", "", none, 0, [], [], none, 0, some 100⟩], 7⟩, 0)
    ∧ (100 : Nat) ≤ 100 := by
  exact ⟨rfl, le_refl 100⟩

/-- C4 (amended): `cleanup_expired` deletes exactly the rows whose
`expires_at` is non-NULL and strictly earlier than `now`
(`expires_at < now`), and returns the number of rows deleted. -/
theorem cleanup_deletes_strictly_expired (s : ContentStore) (now : Nat) :
    (∀ r, r ∈ (s.cleanupExpired now).1.rows ↔
        r ∈ s.rows ∧ ¬(∃ e, r.expiresAt = some e ∧ e < now))
    ∧ (s.cleanupExpired now).2 + (s.cleanupExpired now).1.rows.length
        = s.rows.length := by
  constructor
  · intro r
    simp [ContentStore.cleanupExpired, List.mem_filter, ← sweepExpiredB_iff now r]
  · exact filter_length_split (sweepExpiredB now) s.rows

/-- C6 (counterexample): a `ScrapedContent` constructed with an explicit
non-zero `word_count` keeps it, so `word_count` (5) differs from the
code-point length of `content` (2). -/
theorem word_count_explicit_cex :
    (mkScrapedContent "u" "" "ab" "" "" none 5 [] []).word_count = 5
    ∧ ("ab" : String).length = 2 ∧ (5 : Nat) ≠ 2 := by
  refine ⟨?_, rfl, by decide⟩
  rfl

/-- C6 (amended): whenever a `ScrapedContent` is constructed with the
default `word_count = 0`, `__post_init__` makes `word_count` the
code-point length of `content`; an explicitly supplied non-zero
`word_count` is kept as given (and it is never recomputed on read). -/
theorem word_count_default_construction (url title content html author : String)
    (pt : Option Nat) (images : List String) (metadata : List (String × String)) :
    (mkScrapedContent url title content html author pt 0 images metadata).word_count
      = content.length := by
  unfold mkScrapedContent
  by_cases h : content = ""
  · subst h; simp
  · simp [h]

/-- C10: an empty or whitespace-only model response makes the hotspot
parser return early with `success = False`, the non-empty error
`AI 返回空响应`, and all seven report fields left at their empty
defaults — the graceful-degradation branches (which set
`success = True`) are not reached. -/
theorem hotspot_parse_empty_response (resp : String)
    (h : resp = "" ∨ pyStripStr resp = "") :
    HotspotAnalyzer.parseResponse resp
      = { raw_response := resp, error := "AI 返回空响应" }
    ∧ "AI 返回空响应" ≠ "" := by
  refine ⟨?_, by decide⟩
  unfold HotspotAnalyzer.parseResponse
  have hb : (resp == "" || pyStripStr resp == "") = true := by
    rcases h with h | h <;> simp [h]
  rw [hb, if_pos rfl]

/-- C10 witness: the guard and conclusion at the concrete whitespace
response `" \n "`. -/
theorem hotspot_parse_empty_response_witness :
    HotspotAnalyzer.parseResponse " \n "
      = { raw_response := " \n ", error := "AI 返回空响应" }
    ∧ "AI 返回空响应" ≠ "" :=
  hotspot_parse_empty_response " \n " (Or.inr (by decide))

/-- C2 (counterexample): for the host `evilweibo.com` the router puts
the JS-render primary (`playwright`) first, although no entry of either
built-in set matches under dot-boundary suffix matching
(`d == e ∨ d.endswith("." + e)`): the code uses plain `endswith`. -/
theorem domain_match_no_dot_boundary_cex :
    ScraperRouter.getScraperPriority
        ⟨true, [ScraperType.jinaReader, ScraperType.simple, ScraperType.playwright], []⟩
        "evilweibo.com"
      = [ScraperType.playwright, ScraperType.jinaReader, ScraperType.simple]
    ∧ (∀ e ∈ jsRenderDomains,
        ¬("evilweibo.com" = e ∨ pyEndsWith "evilweibo.com" ("." ++ e) = true))
    ∧ (∀ e ∈ jinaPreferredDomains,
        ¬("evilweibo.com" = e ∨ pyEndsWith "evilweibo.com" ("." ++ e) = true)) := by
  refine ⟨rfl, by decide, by decide⟩

/-- C2 (amended): domain matching is case-folded *plain* suffix
matching, `d.endswith(e) ∨ d == e`, with no dot boundary.  For a host
with no custom domain rule the selected primary is `playwright` iff
some JS-render entry matches; otherwise it is `jina_reader` — through a
reader-preferred match or through the default order, both of which put
the reader fetcher first. -/
theorem router_priority_plain_suffix (r : ScraperRouter) (d : String)
    (h : lookupRule r.domainRules d = none) :
    r.getScraperPriority d = buildPriorityList
      (if jsRenderDomains.any (fun e => domainMatch d e) then ScraperType.playwright
       else ScraperType.jinaReader) := by
  unfold ScraperRouter.getScraperPriority
  rw [h]
  by_cases hjs : jsRenderDomains.any (fun e => domainMatch d e) = true
  · simp [hjs]
  · simp only [Bool.not_eq_true] at hjs
    simp only [hjs, Bool.false_eq_true, if_false]
    by_cases hj : jinaPreferredDomains.any (fun e => domainMatch d e) = true
    · simp [hj]
    · simp only [Bool.not_eq_true] at hj
      simp only [hj, Bool.false_eq_true, if_false]
      rfl

/-- C2 witness: the amended statement at a host matching neither set. -/
theorem router_priority_plain_suffix_witness :
    ScraperRouter.getScraperPriority ⟨true, [], []⟩ "news.ycombinator.com"
      = buildPriorityList
        (if jsRenderDomains.any (fun e => domainMatch "news.ycombinator.com" e)
         then ScraperType.playwright else ScraperType.jinaReader) :=
  router_priority_plain_suffix ⟨true, [], []⟩ "news.ycombinator.com" rfl

/-- C8: the insight parser maps the `n. [domain] content` markers of
the S4 input to exactly the two expected insights, and for every input
the returned list has at most 5 elements (the final `[:5]`). -/
theorem parse_insights_markers_and_cap :
    AIAnalyzer.parseInsights "1. [AI] GPT-5 launched. 2. [Finance] Oil up 3%." =
      [{ domain := "AI", content := "GPT-5 launched." },
       { domain := "Finance", content := "Oil up 3%." }]
    ∧ ∀ text : String, (AIAnalyzer.parseInsights text).length ≤ 5 := by
  constructor
  · rfl
  · intro t
    exact List.length_take_le 5 _

/-- C5: two consecutive saves for the same URL leave exactly one row
for that URL — the row written by the second save, whose fields are
taken from `b'` (`INSERT OR REPLACE` on the `UNIQUE url` column). -/
theorem store_save_upsert_single_row (s : ContentStore) (c c' : ScrapedContent)
    (st st' : Option String) (t t' : Nat) (h : c.url = c'.url) :
    ((s.save c st t).save c' st' t').rows.filter (fun r => r.url == c'.url)
      = [saveRow c' st' t' s.retentionDays] := by
  unfold ContentStore.save
  simp only [List.filter_cons]
  have h1 : ((saveRow c' st' t' s.retentionDays).url == c'.url) = true := by
    simp [saveRow]
  have h2 : ((saveRow c st t s.retentionDays).url != c'.url) = false := by
    simp [saveRow, h]
  simp only [h1, h2, if_true, if_false, List.filter_filter]
  have h3 : ∀ r : StoreRow, ((r.url == c'.url) && (r.url != c.url)) = false := by
    intro r
    by_cases hr : r.url = c'.url <;> simp [hr, h]
  simp [h3]
  exact fun a _ ha hb => absurd ha hb

/-- C5 witness: the upsert at two concrete contents sharing a URL. -/
theorem store_save_upsert_single_row_witness :
    ((ContentStore.save ⟨[], 7⟩ (mkScrapedContent "u" "t1" "b1" "" "" none 0 [] [])
        (some "simple") 1).save
      (mkScrapedContent "u" "t2" "b2" "" "" none 0 [] []) (some "simple") 2).rows.filter
        (fun r => r.url == (mkScrapedContent "u" "t2" "b2" "" "" none 0 [] []).url)
      = [saveRow (mkScrapedContent "u" "t2" "b2" "" "" none 0 [] []) (some "simple") 2 7] :=
  store_save_upsert_single_row ⟨[], 7⟩ _ _ (some "simple") (some "simple") 1 2 rfl

theorem row_eq_of_nodup_url {s : ContentStore} (hnd : (s.rows.map (·.url)).Nodup)
    {r r' : StoreRow} (hr : r ∈ s.rows) (hr' : r' ∈ s.rows) (h : r.url = r'.url) :
    r = r' :=
  List.inj_on_of_nodup_map hnd hr hr' h

theorem get_pred_iff {s : ContentStore} (hwf : s.WF) {r : StoreRow}
    (hr : r ∈ s.rows) (u : String) (now : Nat) :
    ((r.urlHash == hashUrl u) && freshB now r) = true ↔
      r.url = u ∧ freshB now r = true := by
  rw [Bool.and_eq_true, beq_iff_eq, hwf.2 r hr]
  exact and_congr_left fun _ => ⟨fun he => hashUrl_injective he, fun he => he ▸ rfl⟩

/-- C3: on a well-formed store state, `get u` at time `now` returns
`None` iff no row for `u` exists or the row for `u` has
`expires_at ≤ now`; and whenever the row for `u` is visible
(`expires_at IS NULL ∨ expires_at > now`) `get` returns its content. -/
theorem store_get_freshness_iff (s : ContentStore) (hwf : s.WF)
    (u : String) (now : Nat) :
    (s.get u now = none ↔
        (∀ r ∈ s.rows, r.url ≠ u) ∨
        (∃ r ∈ s.rows, r.url = u ∧ ∃ e, r.expiresAt = some e ∧ e ≤ now))
    ∧ (∀ r ∈ s.rows, r.url = u → freshB now r = true →
        s.get u now = some (rowToContent r)) := by
  have hfresh_false : ∀ r : StoreRow, freshB now r = false ↔
      ∃ e, r.expiresAt = some e ∧ e ≤ now := by
    intro r
    cases h : r.expiresAt with
    | none => simp [freshB, h]
    | some e => simp [freshB, h, Nat.not_lt]
  constructor
  · rw [ContentStore.get, Option.map_eq_none', List.find?_eq_none]
    constructor
    · intro hall
      by_cases hex : ∃ r ∈ s.rows, r.url = u
      · obtain ⟨r, hr, hru⟩ := hex
        have := hall r hr
        rw [get_pred_iff hwf hr] at this
        right
        refine ⟨r, hr, hru, ?_⟩
        rw [← hfresh_false]
        cases hf : freshB now r
        · rfl
        · exact absurd ⟨hru, hf⟩ this
      · left
        push_neg at hex
        exact hex
    · rintro (hnone | ⟨r0, hr0, hu0, e, he, hle⟩) r hr hp
      · rw [get_pred_iff hwf hr] at hp
        exact hnone r hr hp.1
      · rw [get_pred_iff hwf hr] at hp
        have : r = r0 := row_eq_of_nodup_url hwf.1 hr hr0 (hp.1.trans hu0.symm)
        subst this
        rw [(hfresh_false r).mpr ⟨e, he, hle⟩] at hp
        exact Bool.false_ne_true hp.2
  · intro r hr hru hf
    have hex : ∃ x ∈ s.rows, ((x.urlHash == hashUrl u) && freshB now x) = true :=
      ⟨r, hr, (get_pred_iff hwf hr u now).mpr ⟨hru, hf⟩⟩
    obtain ⟨x, hxfind⟩ := Option.isSome_iff_exists.mp (List.find?_isSome.mpr hex)
    have hxmem := List.mem_of_find?_eq_some hxfind
    have hxp := List.find?_some hxfind
    rw [get_pred_iff hwf hxmem] at hxp
    have : x = r := row_eq_of_nodup_url hwf.1 hxmem hr (hxp.1.trans hru.symm)
    rw [ContentStore.get, hxfind, this]
    rfl

/-- C3 witness: the freshness iff at a concrete one-row store.  The row
(`expires_at = 10`) is visible at time 5 and expired at time 10. -/
theorem store_get_freshness_witness :
    (ContentStore.get
        ⟨[⟨"a", hashUrl "a", "T", "B", "", none, 1, [], [], some "simple", 0, some 10⟩], 7⟩
        "a" 5
      = some (rowToContent
          ⟨"a", hashUrl "a", "T", "B", "", none, 1, [], [], some "simple", 0, some 10⟩))
    ∧ (ContentStore.get
        ⟨[⟨"a", hashUrl "a", "T", "B", "", none, 1, [], [], some "simple", 0, some 10⟩], 7⟩
        "a" 10
      = none) := by
  constructor
  · exact (store_get_freshness_iff
      ⟨[⟨"a", hashUrl "a", "T", "B", "", none, 1, [], [], some "simple", 0, some 10⟩], 7⟩
      ⟨by decide, by decide⟩ "a" 5).2 _ (by decide) rfl rfl
  · exact ((store_get_freshness_iff
      ⟨[⟨"a", hashUrl "a", "T", "B", "", none, 1, [], [], some "simple", 0, some 10⟩], 7⟩
      ⟨by decide, by decide⟩ "a" 10).1).mpr
      (Or.inr ⟨⟨"a", hashUrl "a", "T", "B", "", none, 1, [], [], some "simple", 0, some 10⟩,
        by decide, rfl, 10, rfl, le_refl 10⟩)

theorem chatGo_ok (attempts : Nat → AttemptOutcome) (maxRetries : Nat) :
    ∀ k remaining attempt lastE resp, k < remaining →
      (∀ j, j < k → ∃ m, attempts (attempt + j) = AttemptOutcome.err m) →
      attempts (attempt + k) = AttemptOutcome.ok resp →
      chatGo attempts maxRetries attempt remaining lastE
        = (Except.ok resp, (List.range k).map (fun i => 2 ^ (attempt + i))) := by
  intro k
  induction k with
  | zero =>
    intro remaining attempt lastE resp hk _ hok
    obtain ⟨rem', rfl⟩ := Nat.exists_eq_succ_of_ne_zero (Nat.pos_iff_ne_zero.mp hk)
    rw [Nat.add_zero] at hok
    simp [chatGo, hok]
  | succ k ih =>
    intro remaining attempt lastE resp hk hfail hok
    obtain ⟨rem', rfl⟩ := Nat.exists_eq_succ_of_ne_zero
      (Nat.pos_iff_ne_zero.mp (Nat.lt_of_le_of_lt (Nat.zero_le _) hk))
    obtain ⟨m, hm⟩ := hfail 0 (Nat.succ_pos k)
    rw [Nat.add_zero] at hm
    have hrem : rem' ≠ 0 := by omega
    have hrest := ih rem' (attempt + 1) m resp (by omega)
      (fun j hj => by
        have := hfail (j + 1) (by omega)
        rwa [show attempt + (j + 1) = attempt + 1 + j by omega] at this)
      (by rwa [show attempt + 1 + k = attempt + (k + 1) by omega])
    rw [chatGo, hm]
    simp only [if_neg hrem, hrest]
    simp only [List.range_succ_eq_map, List.map_cons, List.map_map, Nat.add_zero]
    refine congrArg _ (congrArg _ ?_)
    apply List.map_congr_left
    intro i _
    simp [Function.comp]
    omega

theorem chatGo_fail (attempts : Nat → AttemptOutcome) (maxRetries : Nat) :
    ∀ n attempt lastE em,
      (∀ j, j < n → ∃ m, attempts (attempt + j) = AttemptOutcome.err m) →
      attempts (attempt + n) = AttemptOutcome.err em →
      chatGo attempts maxRetries attempt (n + 1) lastE
        = (Except.error ("LLM 请求失败（重试 " ++ toString maxRetries ++ " 次后）: " ++ em),
           (List.range n).map (fun i => 2 ^ (attempt + i))) := by
  intro n
  induction n with
  | zero =>
    intro attempt lastE em _ hem
    rw [Nat.add_zero] at hem
    simp [chatGo, hem]
  | succ n ih =>
    intro attempt lastE em hfail hem
    obtain ⟨m, hm⟩ := hfail 0 (Nat.succ_pos n)
    rw [Nat.add_zero] at hm
    have hrest := ih (attempt + 1) m em
      (fun j hj => by
        have := hfail (j + 1) (by omega)
        rwa [show attempt + (j + 1) = attempt + 1 + j by omega] at this)
      (by rwa [show attempt + 1 + n = attempt + (n + 1) by omega])
    rw [chatGo, hm]
    simp only [if_neg (Nat.succ_ne_zero n), hrest]
    simp only [List.range_succ_eq_map, List.map_cons, List.map_map, Nat.add_zero]
    refine congrArg _ (congrArg _ ?_)
    apply List.map_congr_left
    intro i _
    simp [Function.comp]
    omega

/-- C7 (counterexample): with `max_retries = 1` and a failing endpoint
the single backoff sleep is `2 ** 0 = 1` second — not the "2, 4, 8 …"
sequence with the first retry delayed at least 2 seconds that the claim
states.  The give-up error does embed the last error. -/
theorem chat_backoff_first_sleep_cex :
    (LLMClient.chat (fun _ => AttemptOutcome.err "boom") 1).2 = [1]
    ∧ ¬(2 ≤ 1)
    ∧ (LLMClient.chat (fun _ => AttemptOutcome.err "boom") 1).1
        = Except.error "LLM 请求失败（重试 1 次后）: boom" := by
  have h := chatGo_fail (fun _ => AttemptOutcome.err "boom") 1 1 0 "" "boom"
    (fun _ _ => ⟨"boom", rfl⟩) rfl
  unfold LLMClient.chat
  rw [h]
  exact ⟨rfl, by decide, rfl⟩

/-- C7 (amended): `chat` makes up to `max_retries` additional attempts
after the first (each attempt outcome covering timeouts, transport
errors and non-200 statuses), sleeping `2 ** attempt` seconds before
the next attempt — the backoff sequence 1, 2, 4, … with the first retry
delayed 1 second — returning the first successful response, and after
exhausting all attempts it gives up with an error embedding the last
error message. -/
theorem chat_retry_behaviour (attempts : Nat → AttemptOutcome) (maxRetries : Nat) :
    (∀ k resp, k ≤ maxRetries →
        (∀ j, j < k → ∃ m, attempts j = AttemptOutcome.err m) →
        attempts k = AttemptOutcome.ok resp →
        LLMClient.chat attempts maxRetries
          = (Except.ok resp, (List.range k).map (fun i => 2 ^ i)))
    ∧ (∀ em, (∀ j, j < maxRetries → ∃ m, attempts j = AttemptOutcome.err m) →
        attempts maxRetries = AttemptOutcome.err em →
        LLMClient.chat attempts maxRetries
          = (Except.error ("LLM 请求失败（重试 " ++ toString maxRetries ++ " 次后）: " ++ em),
             (List.range maxRetries).map (fun i => 2 ^ i))) := by
  constructor
  · intro k resp hk hfail hok
    have := chatGo_ok attempts maxRetries k (maxRetries + 1) 0 "" resp
      (by omega) (fun j hj => by simpa using hfail j hj) (by simpa using hok)
    simpa [LLMClient.chat] using this
  · intro em hfail hem
    have := chatGo_fail attempts maxRetries maxRetries 0 "" em
      (fun j hj => by simpa using hfail j hj) (by simpa using hem)
    simpa [LLMClient.chat] using this

/-- C7 witness: a 503-then-200 endpoint with `max_retries = 1` succeeds
on the single retry after the one backoff sleep of 1 second. -/
theorem chat_retry_behaviour_witness :
    LLMClient.chat
        (fun n => if n = 0 then AttemptOutcome.err "e0"
          else AttemptOutcome.ok ⟨"hi", "m", [], "stop"⟩) 1
      = (Except.ok ⟨"hi", "m", [], "stop"⟩, [1]) := by
  have h := (chat_retry_behaviour
      (fun n => if n = 0 then AttemptOutcome.err "e0"
        else AttemptOutcome.ok ⟨"hi", "m", [], "stop"⟩) 1).1 1
    ⟨"hi", "m", [], "stop"⟩ (le_refl 1)
    (fun j hj => ⟨"e0", by
      have : j = 0 := Nat.lt_one_iff.mp hj
      subst this
      rfl⟩)
    rfl
  simpa using h

/-- The dispatch loop restricted to the registered scrapers (proof
helper: `scrapeLoop` with the membership test already applied). -/
def runChain (fetch : ScraperType → ScraperResult) :
    List ScraperType → String → ScraperResult × List ScraperType
  | [], lastError =>
    (ScraperResult.failure ("所有抓取器均失败: " ++ lastError) ScraperType.simple, [])
  | t :: ts, _ =>
    let res := fetch t
    if res.success then (res, [t])
    else
      let rest := runChain fetch ts res.error
      (rest.1, t :: rest.2)

theorem scrapeLoop_eq_runChain (scrapers : List ScraperType)
    (fetch : ScraperType → ScraperResult) :
    ∀ l e, scrapeLoop scrapers fetch l e
      = runChain fetch (l.filter (fun t => scrapers.contains t)) e := by
  intro l
  induction l with
  | nil => intro e; rfl
  | cons t ts ih =>
    intro e
    by_cases hc : scrapers.contains t = true
    · rw [scrapeLoop, if_pos hc, List.filter_cons_of_pos hc, runChain]
      by_cases hs : (fetch t).success = true
      · simp only [hs, if_true]
      · simp only [Bool.not_eq_true] at hs
        simp only [hs, Bool.false_eq_true, if_false, ih]
    · rw [scrapeLoop, if_neg hc, List.filter_cons_of_neg hc, ih]

theorem runChain_first_success (fetch : ScraperType → ScraperResult) :
    ∀ pre t post e, (∀ u ∈ pre, (fetch u).success = false) →
      (fetch t).success = true →
      runChain fetch (pre ++ t :: post) e = (fetch t, pre ++ [t]) := by
  intro pre
  induction pre with
  | nil => intro t post e _ hs; simp [runChain, hs]
  | cons u pre ih =>
    intro t post e hpre hs
    have hu : (fetch u).success = false := hpre u (List.mem_cons_self u pre)
    rw [List.cons_append, runChain]
    simp only [hu, Bool.false_eq_true, if_false]
    rw [ih t post (fetch u).error (fun v hv => hpre v (List.mem_cons_of_mem u hv)) hs]
    rfl

theorem runChain_all_fail (fetch : ScraperType → ScraperResult) :
    ∀ l e, (∀ t ∈ l, (fetch t).success = false) →
      runChain fetch l e =
        (ScraperResult.failure
          ("所有抓取器均失败: " ++ (l.map (fun t => (fetch t).error)).getLastD e)
          ScraperType.simple, l) := by
  intro l
  induction l with
  | nil => intro e _; rfl
  | cons t ts ih =>
    intro e hall
    have ht : (fetch t).success = false := hall t (List.mem_cons_self t ts)
    rw [runChain]
    simp only [ht, Bool.false_eq_true, if_false]
    rw [ih (fetch t).error (fun v hv => hall v (List.mem_cons_of_mem t hv))]
    rw [List.map_cons, List.getLastD_cons]

/-- C1: on an enabled router with at least one registered scraper, the
dispatch attempts the available fetchers in the computed priority order
(`availOrder`), returns the outcome of the first fetcher that
succeeds — invoking exactly the fetchers up to and including it — and,
when every attempted fetcher fails, returns
`Failure("所有抓取器均失败: <last error>")` after invoking them all. -/
theorem router_scrape_dispatch (r : ScraperRouter) (h1 : r.enabled = true)
    (h2 : r.scrapers ≠ []) (d : String) (fetch : ScraperType → ScraperResult) :
    (∀ pre t post, r.availOrder d = pre ++ t :: post →
        (∀ u ∈ pre, (fetch u).success = false) →
        (fetch t).success = true →
        r.scrape d fetch = (fetch t, pre ++ [t]))
    ∧ ((∀ t ∈ r.availOrder d, (fetch t).success = false) →
        r.scrape d fetch =
          (ScraperResult.failure
            ("所有抓取器均失败: "
              ++ ((r.availOrder d).map (fun t => (fetch t).error)).getLastD "")
            ScraperType.simple,
           r.availOrder d)) := by
  have hs : r.scrape d fetch = runChain fetch (r.availOrder d) "" := by
    unfold ScraperRouter.scrape
    rw [if_neg (by simp [h1]), if_neg (by simp [List.isEmpty_iff, h2])]
    exact scrapeLoop_eq_runChain r.scrapers fetch (r.getScraperPriority d) ""
  constructor
  · intro pre t post havail hpre hsucc
    rw [hs, havail, runChain_first_success fetch pre t post "" hpre hsucc]
  · intro hall
    rw [hs, runChain_all_fail fetch _ "" hall]

/-- The fetchers of scenario S2 at a fixed URL: the reader fails, the
plain scraper succeeds. -/
def fetchS2 : ScraperType → ScraperResult
  | ScraperType.jinaReader => ScraperResult.failure "HTTP 500" ScraperType.jinaReader
  | ScraperType.simple =>
    ScraperResult.successResult
      (mkScrapedContent "https://example.com/p" "T" "OK" "" "" none 0 [] [])
      ScraperType.simple
  | ScraperType.playwright => ScraperResult.failure "e3" ScraperType.playwright

/-- C1 witness: reader fails, the plain scraper is attempted next and
its success is returned without invoking the browser. -/
theorem router_scrape_dispatch_witness :
    ScraperRouter.scrape
        ⟨true, [ScraperType.jinaReader, ScraperType.simple, ScraperType.playwright], []⟩
        "example.com" fetchS2
      = (fetchS2 ScraperType.simple, [ScraperType.jinaReader, ScraperType.simple]) :=
  (router_scrape_dispatch
      ⟨true, [ScraperType.jinaReader, ScraperType.simple, ScraperType.playwright], []⟩
      rfl (by decide) "example.com" fetchS2).1
    [ScraperType.jinaReader] ScraperType.simple [ScraperType.playwright]
    (by decide)
    (fun u hu => by
      rcases List.mem_singleton.mp hu with rfl
      rfl)
    rfl

theorem all_space_of_pyStrip_nil {l : List Char} (h : pyStrip l = []) :
    ∀ c ∈ l, pySpace c = true := by
  unfold pyStrip at h
  rw [List.reverse_eq_nil_iff, List.dropWhile_eq_nil_iff] at h
  have hdrop : ∀ c ∈ l.dropWhile pySpace, pySpace c = true := by
    intro c hc
    exact h c (List.mem_reverse.mpr hc)
  intro c hc
  rw [← List.takeWhile_append_dropWhile (p := pySpace) (l := l)] at hc
  rcases List.mem_append.mp hc with hc | hc
  · exact List.mem_takeWhile_imp hc
  · exact hdrop c hc

theorem pyStrip_nil_of_all_space {l : List Char} (h : ∀ c ∈ l, pySpace c = true) :
    pyStrip l = [] := by
  unfold pyStrip
  rw [List.dropWhile_eq_nil_iff.mpr h]
  rfl

theorem afterFirst_subset (hay need : List Char) : afterFirst hay need ⊆ hay := by
  unfold afterFirst
  cases findSubAux need hay with
  | none => exact List.nil_subset hay
  | some i => exact List.drop_subset _ hay

theorem extractJsonStr_subset (resp : String) :
    (extractJsonStr resp).data ⊆ resp.data := by
  unfold extractJsonStr
  by_cases h1 : containsSub resp.data "```json".data = true
  · simp only [h1, if_true]
    cases hf : findSubAux "```".data (afterFirst resp.data "```json".data) with
    | some i =>
      simp only [hf]
      exact fun c hc =>
        afterFirst_subset resp.data "```json".data (List.take_subset i _ hc)
    | none =>
      simp only [hf]
      exact afterFirst_subset resp.data "```json".data
  · simp only [h1]
    by_cases h2 : containsSub resp.data "```".data = true
    · simp only [h2, if_true, if_false]
      cases hf : findSubAux "```".data (afterFirst resp.data "```".data) with
      | some j =>
        simp only [hf]
        exact fun c hc =>
          afterFirst_subset resp.data "```".data (List.take_subset j _ hc)
      | none =>
        simp only [hf]
        exact afterFirst_subset resp.data "```".data
    · simp only [h2, if_false]
      exact fun c hc => hc

theorem loads_empty : loads "" = Except.error ⟨0, "Expecting value"⟩ := rfl

set_option maxRecDepth 16384 in
/-- C9 (counterexample): a model response that *contains* a valid
seven-field JSON object — preceded by prose, with no code fence — is not
recovered: the parser falls into the degradation branch, records a
parse error and copies the raw text into `summary` instead of carrying
the object's fields. -/
theorem hotspot_parse_embedded_json_cex :
    containsSub
        "Note: \x7b\"summary\":\"S\",\"keyword_analysis\":\"K\",\"sentiment\":\"pos\",\"cross_platform\":\"\",\"impact\":\"\",\"signals\":\"\",\"conclusion\":\"C\"\x7d".data
        "\x7b\"summary\":\"S\",\"keyword_analysis\":\"K\",\"sentiment\":\"pos\",\"cross_platform\":\"\",\"impact\":\"\",\"signals\":\"\",\"conclusion\":\"C\"\x7d".data
      = true
    ∧ loads "\x7b\"summary\":\"S\",\"keyword_analysis\":\"K\",\"sentiment\":\"pos\",\"cross_platform\":\"\",\"impact\":\"\",\"signals\":\"\",\"conclusion\":\"C\"\x7d"
      = Except.ok (Json.obj
          [("summary", Json.str "S"), ("keyword_analysis", Json.str "K"),
           ("sentiment", Json.str "pos"), ("cross_platform", Json.str ""),
           ("impact", Json.str ""), ("signals", Json.str ""),
           ("conclusion", Json.str "C")])
    ∧ (HotspotAnalyzer.parseResponse
        "Note: \x7b\"summary\":\"S\",\"keyword_analysis\":\"K\",\"sentiment\":\"pos\",\"cross_platform\":\"\",\"impact\":\"\",\"signals\":\"\",\"conclusion\":\"C\"\x7d").error
      = "JSON 解析错误 (位置 0): Expecting value"
    ∧ "JSON 解析错误 (位置 0): Expecting value" ≠ ""
    ∧ (HotspotAnalyzer.parseResponse
        "Note: \x7b\"summary\":\"S\",\"keyword_analysis\":\"K\",\"sentiment\":\"pos\",\"cross_platform\":\"\",\"impact\":\"\",\"signals\":\"\",\"conclusion\":\"C\"\x7d").summary
      = Json.str
        "Note: \x7b\"summary\":\"S\",\"keyword_analysis\":\"K\",\"sentiment\":\"pos\",\"cross_platform\":\"\",\"impact\":\"\",\"signals\":\"\",\"conclusion\":\"C\"\x7d"
    ∧ ("Note: \x7b\"summary\":\"S\",\"keyword_analysis\":\"K\",\"sentiment\":\"pos\",\"cross_platform\":\"\",\"impact\":\"\",\"signals\":\"\",\"conclusion\":\"C\"\x7d" : String)
      ≠ "S" := by
  exact ⟨rfl, rfl, rfl, by decide, rfl, by decide⟩

/-- C9 (amended): whenever the *extracted region* — the slice after a
` ```json ` fence up to the closing fence, else between the first two
generic ` ``` ` fences, else the whole text — strips to a string that
parses as a JSON object, the hotspot parser returns a report carrying
that object's seven fields (absent fields default to the empty string),
with `success = True` and `error` left empty.  A JSON object merely
embedded elsewhere in the response is not recovered. -/
theorem hotspot_parse_extracted_json_ok (resp : String) (o : List (String × Json))
    (h : loads (pyStripStr (extractJsonStr resp)) = Except.ok (Json.obj o)) :
    HotspotAnalyzer.parseResponse resp =
      { raw_response := resp
        summary := jsonGetD o "summary" (Json.str "")
        keyword_analysis := jsonGetD o "keyword_analysis" (Json.str "")
        sentiment := jsonGetD o "sentiment" (Json.str "")
        cross_platform := jsonGetD o "cross_platform" (Json.str "")
        impact := jsonGetD o "impact" (Json.str "")
        signals := jsonGetD o "signals" (Json.str "")
        conclusion := jsonGetD o "conclusion" (Json.str "")
        success := true
        error := "" } := by
  have hjs : pyStripStr (extractJsonStr resp) ≠ "" := by
    intro he
    rw [he, loads_empty] at h
    exact Except.noConfusion h
  have hguard : (resp == "" || pyStripStr resp == "") = false := by
    rw [Bool.or_eq_false_iff]
    constructor
    · rw [beq_eq_false_iff_ne]
      intro he
      apply hjs
      subst he
      rfl
    · rw [beq_eq_false_iff_ne]
      intro he
      apply hjs
      have hall : ∀ c ∈ resp.data, pySpace c = true := by
        apply all_space_of_pyStrip_nil
        have : (pyStripStr resp).data = [] := by rw [he]
        exact this
      have : pyStrip (extractJsonStr resp).data = [] :=
        pyStrip_nil_of_all_space
          (fun c hc => hall c (extractJsonStr_subset resp hc))
      show String.mk (pyStrip (extractJsonStr resp).data) = ""
      rw [this]
  unfold HotspotAnalyzer.parseResponse
  rw [hguard]
  simp only [Bool.false_eq_true, if_false]
  unfold parseJsonBody
  rw [if_neg (by simpa using hjs), h]

set_option maxRecDepth 16384 in
/-- C9 witness: the S5 response — a ` ```json ` fenced seven-field
object — is parsed with `success = True`, `error = ""` and the fields
carried over. -/
theorem hotspot_parse_extracted_json_ok_witness :
    HotspotAnalyzer.parseResponse
        "```json\n\x7b\"summary\":\"S\",\"keyword_analysis\":\"K\",\"sentiment\":\"pos\",\"cross_platform\":\"\",\"impact\":\"\",\"signals\":\"\",\"conclusion\":\"C\"\x7d\n```"
      = { raw_response :=
            "```json\n\x7b\"summary\":\"S\",\"keyword_analysis\":\"K\",\"sentiment\":\"pos\",\"cross_platform\":\"\",\"impact\":\"\",\"signals\":\"\",\"conclusion\":\"C\"\x7d\n```"
          summary := jsonGetD
            [("summary", Json.str "S"), ("keyword_analysis", Json.str "K"),
             ("sentiment", Json.str "pos"), ("cross_platform", Json.str ""),
             ("impact", Json.str ""), ("signals", Json.str ""),
             ("conclusion", Json.str "C")] "summary" (Json.str "")
          keyword_analysis := jsonGetD
            [("summary", Json.str "S"), ("keyword_analysis", Json.str "K"),
             ("sentiment", Json.str "pos"), ("cross_platform", Json.str ""),
             ("impact", Json.str ""), ("signals", Json.str ""),
             ("conclusion", Json.str "C")] "keyword_analysis" (Json.str "")
          sentiment := jsonGetD
            [("summary", Json.str "S"), ("keyword_analysis", Json.str "K"),
             ("sentiment", Json.str "pos"), ("cross_platform", Json.str ""),
             ("impact", Json.str ""), ("signals", Json.str ""),
             ("conclusion", Json.str "C")] "sentiment" (Json.str "")
          cross_platform := jsonGetD
            [("summary", Json.str "S"), ("keyword_analysis", Json.str "K"),
             ("sentiment", Json.str "pos"), ("cross_platform", Json.str ""),
             ("impact", Json.str ""), ("signals", Json.str ""),
             ("conclusion", Json.str "C")] "cross_platform" (Json.str "")
          impact := jsonGetD
            [("summary", Json.str "S"), ("keyword_analysis", Json.str "K"),
             ("sentiment", Json.str "pos"), ("cross_platform", Json.str ""),
             ("impact", Json.str ""), ("signals", Json.str ""),
             ("conclusion", Json.str "C")] "impact" (Json.str "")
          signals := jsonGetD
            [("summary", Json.str "S"), ("keyword_analysis", Json.str "K"),
             ("sentiment", Json.str "pos"), ("cross_platform", Json.str ""),
             ("impact", Json.str ""), ("signals", Json.str ""),
             ("conclusion", Json.str "C")] "signals" (Json.str "")
          conclusion := jsonGetD
            [("summary", Json.str "S"), ("keyword_analysis", Json.str "K"),
             ("sentiment", Json.str "pos"), ("cross_platform", Json.str ""),
             ("impact", Json.str ""), ("signals", Json.str ""),
             ("conclusion", Json.str "C")] "conclusion" (Json.str "")
          success := true
          error := "" } :=
  hotspot_parse_extracted_json_ok
    "```json\n\x7b\"summary\":\"S\",\"keyword_analysis\":\"K\",\"sentiment\":\"pos\",\"cross_platform\":\"\",\"impact\":\"\",\"signals\":\"\",\"conclusion\":\"C\"\x7d\n```"
    [("summary", Json.str "S"), ("keyword_analysis", Json.str "K"),
     ("sentiment", Json.str "pos"), ("cross_platform", Json.str ""),
     ("impact", Json.str ""), ("signals", Json.str ""),
     ("conclusion", Json.str "C")]
    rfl

end NewsTest
